import Mathlib

/-! Shallow embedding of the LLM playground gateway core: the provider
adapters (`services/modelService.js`), request validation
(`middleware/validation.js`), environment configuration
(`config/environment.js`), the chat and SSE dispatch routes
(`routes/models.js`) and the error handler (`middleware/errorHandler.js`).
JavaScript numbers are modelled as exact rationals, JSON object keys that
may be absent as `Option`, and thrown JavaScript errors as
`Except`/`Option` results. -/

/-- Token usage record reported by the upstream providers
(`response.data.usage`). -/
structure Usage where
  prompt_tokens : Nat
  completion_tokens : Nat
  total_tokens : Nat
  deriving DecidableEq

/-- The `metadata` object of an adapter result. The source builds it as a
JavaScript object literal; a key that a given adapter does not write is
modelled as `none`. `OpenAIService`, `GroqService` and `GoogleAIService`
write `finish_reason`; `AnthropicService` writes `stop_reason` instead
(`modelService.js` line 195). -/
structure ResponseMetadata where
  model : String
  finish_reason : Option String
  stop_reason : Option String
  deriving DecidableEq

/-- Normalized adapter result: `{content, usage?, metadata}`.
`GoogleAIService.generateCompletion` writes no `usage` key, hence the
`Option`. -/
structure NormalizedResponse where
  content : String
  usage : Option Usage
  metadata : ResponseMetadata
  deriving DecidableEq

/-- Canonical unit delivered to the route by `onChunk` during streaming. -/
inductive StreamChunk where
  | content (text : String)
  | done
  | error (message : String)
  deriving DecidableEq

/-- One element of `response.data.choices` in an OpenAI-compatible
completion body: `choice.message.content` and `choice.finish_reason`. -/
structure OpenAIChoice where
  message_content : String
  finish_reason : String
  deriving DecidableEq

/-- The success body of an OpenAI-compatible `/chat/completions` call. -/
structure OpenAIResponseData where
  model : String
  choices : List OpenAIChoice
  usage : Option Usage
  deriving DecidableEq

/-- `OpenAIService.generateCompletion` success mapping
(`modelService.js` lines 89-97): take `choices[0]`, return
`{content: choice.message.content, usage, metadata: {model,
finish_reason: choice.finish_reason}}`. Accessing `choices[0]` of an
empty array throws in JavaScript, modelled by `none`. -/
def openaiGenerateCompletion (d : OpenAIResponseData) : Option NormalizedResponse :=
  d.choices.head?.map fun choice =>
    { content := choice.message_content
      usage := d.usage
      metadata :=
        { model := d.model
          finish_reason := some choice.finish_reason
          stop_reason := none } }

/-- `GroqService.generateCompletion` success mapping
(`modelService.js` lines 246-254); Groq speaks the OpenAI wire format and
the mapping is textually identical to the OpenAI one. -/
def groqGenerateCompletion (d : OpenAIResponseData) : Option NormalizedResponse :=
  d.choices.head?.map fun choice =>
    { content := choice.message_content
      usage := d.usage
      metadata :=
        { model := d.model
          finish_reason := some choice.finish_reason
          stop_reason := none } }

/-- One element of `response.data.content` in an Anthropic messages body. -/
structure AnthropicContentBlock where
  text : String
  deriving DecidableEq

/-- The success body of an Anthropic `/v1/messages` call. -/
structure AnthropicResponseData where
  model : String
  content : List AnthropicContentBlock
  usage : Option Usage
  stop_reason : String
  deriving DecidableEq

/-- `AnthropicService.generateCompletion` success mapping
(`modelService.js` lines 190-197): `{content: response.data.content[0].text,
usage, metadata: {model, stop_reason}}`. Note the metadata key is
`stop_reason`, not `finish_reason`. -/
def anthropicGenerateCompletion (d : AnthropicResponseData) : Option NormalizedResponse :=
  d.content.head?.map fun block =>
    { content := block.text
      usage := d.usage
      metadata :=
        { model := d.model
          finish_reason := none
          stop_reason := some d.stop_reason } }

/-- One candidate of a Google `generateContent` body:
`candidate.content.parts` (each part contributing its `text`) and
`candidate.finishReason`. -/
structure GoogleCandidate where
  parts : List String
  finishReason : String
  deriving DecidableEq

/-- The success body of a Google `generateContent` call. -/
structure GoogleResponseData where
  candidates : List GoogleCandidate
  deriving DecidableEq

/-- `GoogleAIService.generateCompletion` success mapping
(`modelService.js` lines 355-366): missing or empty `candidates` raises
(`No response generated`), else return
`{content: candidate.content.parts[0].text, metadata: {model,
finish_reason: candidate.finishReason}}`. The request `model` is echoed and
no `usage` key is written. -/
def googleGenerateCompletion (model : String) (d : GoogleResponseData) : Option NormalizedResponse :=
  d.candidates.head?.bind fun candidate =>
    candidate.parts.head?.map fun text =>
      { content := text
        usage := none
        metadata :=
          { model := model
            finish_reason := some candidate.finishReason
            stop_reason := none } }

/-- `AnthropicService.generateStreamingCompletion`
(`modelService.js` lines 203-208): perform the full blocking call, then
invoke `onChunk` once with a content chunk. No done chunk is emitted. -/
def anthropicGenerateStreamingChunks (d : AnthropicResponseData) : Option (List StreamChunk) :=
  (anthropicGenerateCompletion d).map fun result =>
    [StreamChunk.content result.content]

/-- `GoogleAIService.generateStreamingCompletion`
(`modelService.js` lines 372-378): perform the full blocking call, then
invoke `onChunk` with one content chunk followed by one done chunk. -/
def googleGenerateStreamingChunks (model : String) (d : GoogleResponseData) : Option (List StreamChunk) :=
  (googleGenerateCompletion model d).map fun result =>
    [StreamChunk.content result.content, StreamChunk.done]

/-- One non-blank line of an upstream SSE data buffer, as seen by the
`response.data.on` handler of `OpenAIService.generateStreamingCompletion`
(`modelService.js` lines 130-149) after `split` and the blank-line filter:
either the literal terminator `data: [DONE]`, a `data: ` line whose JSON
parses (carrying `parsed.choices[0]?.delta?.content`, `none` when the
chain is absent), a `data: ` line whose JSON does not parse, or a line not
starting with `data: `. -/
inductive SseLine where
  | doneMark
  | dataLine (deltaContent : Option String)
  | malformed
  | other
  deriving DecidableEq

/-- `onChunk` invocations produced by one line: only a parsed `data: `
line with truthy `delta.content` (present and non-empty) emits a chunk;
malformed JSON is silently ignored, as are lines without `data: `. -/
def lineChunk : SseLine → List StreamChunk
  | SseLine.dataLine (some text) =>
      if text = "" then [] else [StreamChunk.content text]
  | _ => []

/-- Processing of one data buffer by the handler: lines in order; the
`return` on `data: [DONE]` exits the handler, skipping the rest of this
buffer. -/
def handleStreamBuffer : List SseLine → List StreamChunk
  | [] => []
  | SseLine.doneMark :: _ => []
  | line :: rest => lineChunk line ++ handleStreamBuffer rest

/-- `onChunk` invocations over a sequence of data buffers delivered in
arrival order: each buffer is handled by a separate invocation of the
`data` listener. `GroqService.generateStreamingCompletion`
(`modelService.js` lines 287-306) has the textually identical handler. -/
def openaiStreamEmits (buffers : List (List SseLine)) : List StreamChunk :=
  (buffers.map handleStreamBuffer).flatten

/-- Standardized error thrown by the adapters (`APIError` in
`middleware/errorHandler.js` lines 144-153, restricted to the fields the
routes and the error handler read). -/
structure APIError where
  message : String
  statusCode : Nat
  provider : String
  deriving DecidableEq

/-- One write performed (or attempted) on the SSE response of
`POST /api/models/stream` (`routes/models.js`): a `data: <chunk JSON>`
event, the `data: [DONE]` terminator, a `data: {"error": message}` event,
the `res.end()` call, or a `data:` event attempted after `res.end()`
(which fails at the transport and is never delivered). -/
inductive SseWrite where
  | event (c : StreamChunk)
  | doneTerminator
  | errorEvent (message : String)
  | endResponse
  | lateEvent (c : StreamChunk)
  deriving DecidableEq

/-- Outcome of the `/stream` route after validation and the availability
check: the HTTP status (200 unless an earlier `res.status` call ran), the
ordered write trace, and whether the JSON error-envelope middleware
produced the response. -/
structure StreamRouteResult where
  status : Nat
  writes : List SseWrite
  envelopeSent : Bool
  deriving DecidableEq

/-- The `/stream` route (`routes/models.js` lines 260-303) composed with
`OpenAIService.generateStreamingCompletion` (identically
`GroqService`). The adapter awaits `axios.post` (which, with
`responseType: 'stream'`, resolves as soon as the response headers
arrive), registers the `data` listener, and returns; it does not await
the end of the upstream body. Hence when the call rejects, the route
catch writes one `data: {"error": message}` event and ends; when it
resolves, the route continuation immediately writes `data: [DONE]` and
calls `res.end()`, and the `onChunk` writes for frames delivered after
resolution are attempted after the response has ended. The route never
sets a status, so the committed status is 200, and its catch swallows the
error instead of forwarding it to the error-envelope middleware. -/
def streamRouteIncremental (callResult : Except APIError Unit)
    (buffers : List (List SseLine)) : StreamRouteResult :=
  match callResult with
  | Except.error e =>
      { status := 200
        writes := [SseWrite.errorEvent e.message, SseWrite.endResponse]
        envelopeSent := false }
  | Except.ok _ =>
      { status := 200
        writes := [SseWrite.doneTerminator, SseWrite.endResponse]
            ++ (openaiStreamEmits buffers).map SseWrite.lateEvent
        envelopeSent := false }

/-- The `/stream` route composed with a blocking fallback adapter
(`AnthropicService` or `GoogleAIService`): the adapter awaits the full
completion and invokes `onChunk` synchronously before resolving, so the
chunk events precede the terminator; a rejection is caught and written as
one in-band error event. -/
def streamRouteBlocking (callResult : Except APIError (List StreamChunk)) : StreamRouteResult :=
  match callResult with
  | Except.error e =>
      { status := 200
        writes := [SseWrite.errorEvent e.message, SseWrite.endResponse]
        envelopeSent := false }
  | Except.ok chunks =>
      { status := 200
        writes := chunks.map SseWrite.event
            ++ [SseWrite.doneTerminator, SseWrite.endResponse]
        envelopeSent := false }

/-- The pieces of an upstream HTTP error response read by
`handleApiError`: `error.response.status` and the message candidates
`data?.error?.message` and `data?.message`. -/
structure UpstreamErrorResponse where
  status : Nat
  dataErrorMessage : Option String
  dataMessage : Option String
  deriving DecidableEq

/-- A raw JavaScript error as axios produces it: `error.response` when the
upstream answered with an error status, `error.request` when the request
was sent but no response was received (network failure or timeout), an
optional `error.code`, and the message. -/
structure JsError where
  response : Option UpstreamErrorResponse
  hasRequest : Bool
  code : Option String
  message : String
  deriving DecidableEq

/-- `BaseModelService.handleApiError` (`modelService.js` lines 38-51):
an HTTP error response yields an `APIError` mirroring the upstream
status; a request without response yields status 502; anything else
status 500. The service provider name is always attached. -/
def handleApiError (provider : String) (operation : String) (e : JsError) : APIError :=
  match e.response with
  | some r =>
      { message := ((r.dataErrorMessage).orElse fun _ => r.dataMessage).getD (operation ++ " failed")
        statusCode := r.status
        provider := provider }
  | none =>
      if e.hasRequest then
        { message := "Network error during " ++ operation
          statusCode := 502
          provider := provider }
      else
        { message := "Unexpected error during " ++ operation ++ ": " ++ e.message
          statusCode := 500
          provider := provider }

/-- The error axios produces when the configured `timeout: 60000`
expires: the request was made (`error.request` is set) but no response
was received (`error.response` is absent), and `error.code` is
`ECONNABORTED`. Modelled from axios documented timeout behavior; every
upstream call in `modelService.js` sets `timeout: 60000`. -/
def axiosTimeoutError : JsError :=
  { response := none
    hasRequest := true
    code := some "ECONNABORTED"
    message := "timeout of 60000ms exceeded" }

/-- JavaScript `a || b` on an optional number: `0` and missing are falsy. -/
def jsOrNat (n : Option Nat) (d : Nat) : Nat :=
  match n with
  | some k => if k = 0 then d else k
  | none => d

/-- A raised error as seen by the error-handling middleware, restricted to
the fields `errorHandler` reads. -/
structure RaisedError where
  name : String
  statusCode : Option Nat
  code : Option String
  message : String
  provider : Option String
  deriving DecidableEq

/-- Status computation of `errorHandler` (`middleware/errorHandler.js`
lines 252-264): start from `err.statusCode || 500`, then override by
error name (`ValidationError`, `UnauthorizedError`) or by network error
codes on the raw error. -/
def errorHandlerStatus (err : RaisedError) : Nat :=
  if err.name = "ValidationError" then 400
  else if err.name = "UnauthorizedError" then 401
  else if err.code = some "ECONNREFUSED" ∨ err.code = some "ENOTFOUND" then 502
  else if err.code = some "ETIMEDOUT" then 504
  else jsOrNat err.statusCode 500

/-- How a thrown `APIError` instance presents to `errorHandler`: its
`name` is the fixed string `APIError`, its `statusCode` is set, and it
carries no `code` property. -/
def apiErrorToRaised (a : APIError) : RaisedError :=
  { name := "APIError"
    statusCode := some a.statusCode
    code := none
    message := a.message
    provider := some a.provider }

/-- HTTP status of the response for an upstream failure in
`generateCompletion`: the raw error is wrapped by `handleApiError`, the
`APIError` propagates through the route to `errorHandler`, which picks
the status. -/
def upstreamFailureHttpStatus (provider : String) (operation : String) (e : JsError) : Nat :=
  errorHandlerStatus (apiErrorToRaised (handleApiError provider operation e))

/-- `errorHandler` first guard (`middleware/errorHandler.js` lines
246-250): when response headers were already sent it delegates to the
default handler and writes no envelope; otherwise it responds with the
computed status. -/
def errorHandlerRespond (headersSent : Bool) (err : RaisedError) : Option Nat :=
  if headersSent then none else some (errorHandlerStatus err)

/-- Environment configuration after `validateEnvironment`
(`config/environment.js`): per-provider API key (absent or the raw
string, possibly empty) and base URL, plus the resolved `DEFAULT_*`
parameter values. -/
structure EnvConfig where
  openaiKey : Option String
  openaiBaseUrl : String
  anthropicKey : Option String
  anthropicBaseUrl : String
  groqKey : Option String
  groqBaseUrl : String
  googleKey : Option String
  googleBaseUrl : String
  defaultTemperature : Rat
  defaultMaxTokens : Rat
  defaultTopP : Rat
  defaultFrequencyPenalty : Rat
  defaultPresencePenalty : Rat
  deriving DecidableEq

/-- JavaScript truthiness of an optional environment string:
`!!process.env.X` is false for an unset variable and for the empty
string. -/
def truthyString : Option String → Bool
  | some s => s ≠ ""
  | none => false

/-- Per-provider configuration record built by `getProviderConfig`
(`config/environment.js` lines 81-106). -/
structure ProviderConfig where
  apiKey : Option String
  baseUrl : String
  available : Bool
  deriving DecidableEq

/-- ASCII lowering of one character, as `String.prototype.toLowerCase`
acts on the ASCII provider names used here. -/
def charToLower (c : Char) : Char :=
  if 65 ≤ c.toNat ∧ c.toNat ≤ 90 then Char.ofNat (c.toNat + 32) else c

/-- `provider.toLowerCase()` on the ASCII provider names. -/
def toLowerCase (s : String) : String :=
  String.mk (s.data.map charToLower)

/-- `getProviderConfig(provider)`: a fixed four-entry table keyed by the
lowercased provider name; `available` is credential presence
(`!!process.env.<PROVIDER>_API_KEY`), and an unknown provider yields
`undefined` (`none`). -/
def getProviderConfig (env : EnvConfig) (provider : String) : Option ProviderConfig :=
  if toLowerCase provider = "openai" then
    some { apiKey := env.openaiKey, baseUrl := env.openaiBaseUrl
           available := truthyString env.openaiKey }
  else if toLowerCase provider = "anthropic" then
    some { apiKey := env.anthropicKey, baseUrl := env.anthropicBaseUrl
           available := truthyString env.anthropicKey }
  else if toLowerCase provider = "groq" then
    some { apiKey := env.groqKey, baseUrl := env.groqBaseUrl
           available := truthyString env.groqKey }
  else if toLowerCase provider = "google" then
    some { apiKey := env.googleKey, baseUrl := env.googleBaseUrl
           available := truthyString env.googleKey }
  else none

/-- The five fields of `getDefaultParameters`
(`config/environment.js` lines 112-120), already resolved from the
`DEFAULT_*` environment values. -/
structure DefaultParams where
  temperature : Rat
  max_tokens : Rat
  top_p : Rat
  frequency_penalty : Rat
  presence_penalty : Rat
  deriving DecidableEq

/-- `getDefaultParameters()` reads the process-wide `DEFAULT_*` values. -/
def getDefaultParameters (env : EnvConfig) : DefaultParams :=
  { temperature := env.defaultTemperature
    max_tokens := env.defaultMaxTokens
    top_p := env.defaultTopP
    frequency_penalty := env.defaultFrequencyPenalty
    presence_penalty := env.defaultPresencePenalty }

/-- A client-side `parameters` object: every key optional (absent keys are
simply not present after Joi validation strips nothing here). -/
structure UserParams where
  temperature : Option Rat
  max_tokens : Option Rat
  top_p : Option Rat
  frequency_penalty : Option Rat
  presence_penalty : Option Rat
  stop : Option (List String)
  stream : Option Bool
  deriving DecidableEq

/-- The empty `parameters` object. -/
def emptyUserParams : UserParams :=
  { temperature := none, max_tokens := none, top_p := none
    frequency_penalty := none, presence_penalty := none
    stop := none, stream := none }

/-- Merged parameter set produced by `BaseModelService.mergeParameters`
(`modelService.js` lines 25-30): the five numeric fields are always
present (the defaults record supplies them); `stop` and `stream` are only
present when the user object carries them. -/
structure MergedParams where
  temperature : Rat
  max_tokens : Rat
  top_p : Rat
  frequency_penalty : Rat
  presence_penalty : Rat
  stop : Option (List String)
  stream : Option Bool
  deriving DecidableEq

/-- `mergeParameters(userParams)` = `{...this.defaultParams,
...userParams}`: keys present on the user object override the defaults;
absent keys fall back to the defaults (which define only the five numeric
fields). -/
def mergeParameters (defaults : DefaultParams) (userParams : UserParams) : MergedParams :=
  { temperature := userParams.temperature.getD defaults.temperature
    max_tokens := userParams.max_tokens.getD defaults.max_tokens
    top_p := userParams.top_p.getD defaults.top_p
    frequency_penalty := userParams.frequency_penalty.getD defaults.frequency_penalty
    presence_penalty := userParams.presence_penalty.getD defaults.presence_penalty
    stop := userParams.stop
    stream := userParams.stream }

/-- Joi defaults of the `parameters` sub-schema
(`middleware/validation.js` lines 32-40): when a `parameters` object is
supplied, every absent numeric field is filled with the schema constant
(`temperature` 0.7, `max_tokens` 1000, `top_p` 1.0,
`frequency_penalty` 0.0, `presence_penalty` 0.0, `stream` false);
`stop` is optional with no default. -/
def applySchemaParamDefaults (p : UserParams) : UserParams :=
  { temperature := some (p.temperature.getD (7 / 10 : Rat))
    max_tokens := some (p.max_tokens.getD 1000)
    top_p := some (p.top_p.getD 1)
    frequency_penalty := some (p.frequency_penalty.getD 0)
    presence_penalty := some (p.presence_penalty.getD 0)
    stop := p.stop
    stream := some (p.stream.getD false) }

/-- The `parameters` value attached to `req.validatedData`: a supplied
object gets the Joi sub-schema defaults applied; an absent key takes the
schema default `.default({})`, which Joi inserts verbatim without
applying the inner key defaults to it. -/
def validatedParameters : Option UserParams → UserParams
  | none => emptyUserParams
  | some p => applySchemaParamDefaults p

/-- The raw value attached to a validation detail (`detail.context?.value`). -/
inductive RawValue where
  | str (s : String)
  | num (q : Rat)
  | strList (l : List String)
  deriving DecidableEq

/-- One entry of the `details` array of a validation failure:
`{field, message, value}` (`middleware/validation.js` lines 59-63); the
`value` key is absent for a missing required field. -/
structure ValidationDetail where
  field : String
  message : String
  value : Option RawValue
  deriving DecidableEq

/-- The model identifiers accepted by the request schema
(`middleware/validation.js` lines 13-21). -/
def validModels : List String :=
  ["gpt-4", "gpt-4-turbo", "gpt-4o", "gpt-4o-mini", "gpt-3.5-turbo",
   "llama-3.1-8b-instant", "gemma2-9b-it", "openai/gpt-oss-120b",
   "gemini-2.5-pro", "gemini-2.5-flash", "gemini-2.5-flash-lite",
   "gemini-2.0-flash", "gemini-2.0-flash-lite",
   "claude-opus-4-1-20250805", "claude-opus-4-20250514",
   "claude-sonnet-4-20250514"]

/-- The provider names accepted by the request schema. -/
def validProviders : List String :=
  ["openai", "anthropic", "groq", "google"]

/-- A raw request body for `/chat` or `/stream`, typed per the schema;
`unknownKeys` records any top-level keys outside the schema
(`stripUnknown: true` removes them). -/
structure RawBody where
  prompt : Option String
  model : Option String
  provider : Option String
  parameters : Option UserParams
  unknownKeys : List String
  deriving DecidableEq

/-- Violations of the `prompt` rule: required, non-empty, at most 10000
characters (custom Joi messages from `middleware/validation.js`
lines 6-11). -/
def checkPrompt : Option String → List ValidationDetail
  | none => [{ field := "prompt", message := "Prompt is required", value := none }]
  | some s =>
      if s = "" then
        [{ field := "prompt", message := "Prompt cannot be empty"
           value := some (RawValue.str s) }]
      else if s.length > 10000 then
        [{ field := "prompt", message := "Prompt cannot exceed 10000 characters"
           value := some (RawValue.str s) }]
      else []

/-- Violations of the `model` rule: required and a member of the fixed
model list. -/
def checkModel : Option String → List ValidationDetail
  | none => [{ field := "model", message := "Model selection is required", value := none }]
  | some m =>
      if m ∈ validModels then []
      else [{ field := "model", message := "Invalid model selection"
              value := some (RawValue.str m) }]

/-- Violations of the `provider` rule: required and one of the four
providers. -/
def checkProvider : Option String → List ValidationDetail
  | none => [{ field := "provider", message := "Provider selection is required", value := none }]
  | some p =>
      if p ∈ validProviders then []
      else [{ field := "provider", message := "Invalid provider selection"
              value := some (RawValue.str p) }]

/-- Range rule for one numeric parameter field (Joi `number().min().max()`;
messages abbreviated, the source uses Joi default texts here). -/
def checkNumberRange (field : String) (lo hi : Rat) : Option Rat → List ValidationDetail
  | none => []
  | some q =>
      if q < lo then
        [{ field := field, message := field ++ " below minimum"
           value := some (RawValue.num q) }]
      else if hi < q then
        [{ field := field, message := field ++ " above maximum"
           value := some (RawValue.num q) }]
      else []

/-- Rule for `parameters.stop`: at most 4 strings. -/
def checkStop : Option (List String) → List ValidationDetail
  | none => []
  | some l =>
      if l.length > 4 then
        [{ field := "parameters.stop", message := "parameters.stop above maximum length"
           value := some (RawValue.strList l) }]
      else []

/-- All violations of the `parameters` sub-schema, in schema key order. -/
def checkParameters : Option UserParams → List ValidationDetail
  | none => []
  | some p =>
      checkNumberRange "parameters.temperature" 0 2 p.temperature
        ++ checkNumberRange "parameters.max_tokens" 1 8000 p.max_tokens
        ++ checkNumberRange "parameters.top_p" 0 1 p.top_p
        ++ checkNumberRange "parameters.frequency_penalty" (-2) 2 p.frequency_penalty
        ++ checkNumberRange "parameters.presence_penalty" (-2) 2 p.presence_penalty
        ++ checkStop p.stop

/-- All schema violations of a body, in schema key order, as produced by
one `requestSchema.validate(req.body, {abortEarly: false, stripUnknown:
true})` pass: every violating field contributes its entry and unknown
top-level keys contribute nothing. -/
def collectViolations (b : RawBody) : List ValidationDetail :=
  checkPrompt b.prompt ++ checkModel b.model ++ checkProvider b.provider
    ++ checkParameters b.parameters

/-- `req.validatedData`: the typed value attached on validation success.
Unknown top-level keys are stripped (the structure has no slot for
them). -/
structure ValidatedData where
  prompt : String
  model : String
  provider : String
  parameters : UserParams
  deriving DecidableEq

/-- `validateRequest` as a function from a raw body to either the 400
details list or the validated value (`middleware/validation.js` lines
49-90). On success the required fields are present, so the `getD ""`
fallbacks are never exercised. -/
def validateBody (b : RawBody) : Except (List ValidationDetail) ValidatedData :=
  if collectViolations b = [] then
    Except.ok
      { prompt := b.prompt.getD ""
        model := b.model.getD ""
        provider := b.provider.getD ""
        parameters := validatedParameters b.parameters }
  else
    Except.error (collectViolations b)

/-- The per-provider model lists of `validateModelProvider`
(`middleware/validation.js` lines 98-107). -/
def modelProviderMap (provider : String) : Option (List String) :=
  if provider = "openai" then
    some ["gpt-4", "gpt-4-turbo", "gpt-4o", "gpt-4o-mini", "gpt-3.5-turbo"]
  else if provider = "groq" then
    some ["llama-3.1-8b-instant", "gemma2-9b-it", "openai/gpt-oss-120b"]
  else if provider = "google" then
    some ["gemini-2.5-pro", "gemini-2.5-flash", "gemini-2.5-flash-lite",
          "gemini-2.0-flash", "gemini-2.0-flash-lite"]
  else if provider = "anthropic" then
    some ["claude-opus-4-1-20250805", "claude-opus-4-20250514",
          "claude-sonnet-4-20250514"]
  else none

/-- `validateModelProvider(model, provider)` =
`modelProviderMap[provider]?.includes(model) || false`: a pure table
lookup involving no provider call. -/
def validateModelProvider (model : String) (provider : String) : Bool :=
  match modelProviderMap provider with
  | some models => model ∈ models
  | none => false

/-- One entry of the route-level model catalog (`routes/models.js`
`getProviderModels`, lines 310-339). -/
structure ModelInfo where
  id : String
  name : String
  description : String
  deriving DecidableEq

/-- The fixed `modelMap` of `getProviderModels`; an unknown provider
yields the empty list. -/
def getProviderModels (provider : String) : List ModelInfo :=
  if provider = "openai" then
    [{ id := "gpt-4", name := "GPT-4"
       description := "Most capable model, best for complex tasks" },
     { id := "gpt-4-turbo", name := "GPT-4 Turbo"
       description := "Faster and more efficient GPT-4" },
     { id := "gpt-4o", name := "GPT-4o"
       description := "Latest GPT-4 optimized model" },
     { id := "gpt-4o-mini", name := "GPT-4o Mini"
       description := "Compact version of GPT-4o" },
     { id := "gpt-3.5-turbo", name := "GPT-3.5 Turbo"
       description := "Fast and efficient for most tasks" }]
  else if provider = "groq" then
    [{ id := "llama-3.1-8b-instant", name := "Llama 3.1 8B Instant"
       description := "Fast Llama model for quick responses" },
     { id := "gemma2-9b-it", name := "Gemma2 9B IT"
       description := "Google Gemma2 instruction-tuned model" },
     { id := "openai/gpt-oss-120b", name := "GPT OSS 120B"
       description := "Large open-source GPT model" }]
  else if provider = "google" then
    [{ id := "gemini-2.5-pro", name := "Gemini 2.5 Pro"
       description := "Most advanced Gemini model" },
     { id := "gemini-2.5-flash", name := "Gemini 2.5 Flash"
       description := "Fast and efficient Gemini model" },
     { id := "gemini-2.5-flash-lite", name := "Gemini 2.5 Flash-Lite"
       description := "Lightweight Gemini model" },
     { id := "gemini-2.0-flash", name := "Gemini 2.0 Flash"
       description := "Previous generation fast Gemini model" },
     { id := "gemini-2.0-flash-lite", name := "Gemini 2.0 Flash-Lite"
       description := "Previous generation lightweight Gemini model" }]
  else if provider = "anthropic" then
    [{ id := "claude-opus-4-1-20250805", name := "Claude Opus 4.1"
       description := "Latest Claude Opus model" },
     { id := "claude-opus-4-20250514", name := "Claude Opus 4"
       description := "Most powerful Claude model" },
     { id := "claude-sonnet-4-20250514", name := "Claude Sonnet 4"
       description := "Balanced Claude model for most tasks" }]
  else []

/-- One value of the `providers` map returned by `GET /api/models/providers`:
`{available, models}`. -/
structure ProvidersEntry where
  available : Bool
  models : List ModelInfo
  deriving DecidableEq

/-- The `providers` map of `GET /api/models/providers`
(`routes/models.js` lines 109-130): for each of the four fixed provider
names, the availability flag from `getProviderConfig` and the model
catalog. The four names are always present in the configuration table,
so the `getD false` fallback is never exercised. -/
def providersStatus (env : EnvConfig) : List (String × ProvidersEntry) :=
  ["openai", "anthropic", "groq", "google"].map fun provider =>
    (provider,
      { available := ((getProviderConfig env provider).map ProviderConfig.available).getD false
        models := getProviderModels provider })

/-- Full body of `GET /api/models/providers`: the providers map plus the
request-time timestamp. -/
structure ProvidersResponse where
  providers : List (String × ProvidersEntry)
  timestamp : Nat
  deriving DecidableEq

/-- The `GET /api/models/providers` handler, given the process
environment and the wall-clock instant of the call. -/
def providersRoute (env : EnvConfig) (now : Nat) : ProvidersResponse :=
  { providers := providersStatus env, timestamp := now }

/-- Response of `GET /api/models/:provider` (`routes/models.js` lines
136-164), with every optional body key modelled as `Option`; the handler
never constructs an adapter, and in particular the 503 body is
`{error, message, provider}` with no `available` key. -/
structure ProviderModelsResponse where
  status : Nat
  errorName : Option String
  message : Option String
  provider : Option String
  available : Option Bool
  models : Option (List ModelInfo)
  supportedProviders : Option (List String)
  deriving DecidableEq

/-- The `GET /api/models/:provider` handler: 404 for a provider outside
the configuration table, 503 when the credential is absent, else the
model catalog with `available: true`. -/
def providerRoute (env : EnvConfig) (provider : String) : ProviderModelsResponse :=
  match getProviderConfig env provider with
  | none =>
      { status := 404
        errorName := some "Provider Not Found"
        message := some ("Provider \x27" ++ provider ++ "\x27 is not supported")
        provider := none
        available := none
        models := none
        supportedProviders := some validProviders }
  | some config =>
      if config.available = false then
        { status := 503
          errorName := some "Provider Unavailable"
          message := some ("Provider \x27" ++ provider
            ++ "\x27 is not configured or API key is missing")
          provider := some provider
          available := none
          models := none
          supportedProviders := none }
      else
        { status := 200
          errorName := none
          message := none
          provider := some provider
          available := some true
          models := some (getProviderModels provider)
          supportedProviders := none }

/-- Observable outcome of `POST /api/models/chat` (`routes/models.js`
lines 170-241): HTTP status, the distinguishing body fields, and whether
an adapter was constructed (`createModelService`) and the upstream called
by the time the response is produced. -/
structure ChatResponse where
  status : Nat
  errorName : Option String
  message : Option String
  details : Option (List ValidationDetail)
  provider : Option String
  success : Bool
  adapterConstructed : Bool
  upstreamCalled : Bool
  deriving DecidableEq

/-- The 503 body written by the availability check of the chat and
stream routes, before any adapter is constructed. -/
def providerUnavailableResponse (provider : String) : ChatResponse :=
  { status := 503
    errorName := some "Provider Unavailable"
    message := some ("Provider \x27" ++ provider
      ++ "\x27 is not configured or API key is missing")
    details := none
    provider := some provider
    success := false
    adapterConstructed := false
    upstreamCalled := false }

/-- The `POST /api/models/chat` pipeline: `validateRequest`, then
`validateModelCompatibility`, then the availability check, then adapter
construction and the upstream call. The upstream outcome (success body or
the `APIError` wrapped by `handleApiError`) is passed in as `upstream`;
a thrown `APIError` propagates to `errorHandler`, which picks the
response status. -/
def chatRoute (env : EnvConfig) (b : RawBody)
    (upstream : Except APIError NormalizedResponse) : ChatResponse :=
  match validateBody b with
  | Except.error ds =>
      { status := 400
        errorName := some "Validation Error"
        message := some "Request validation failed"
        details := some ds
        provider := none
        success := false
        adapterConstructed := false
        upstreamCalled := false }
  | Except.ok vd =>
      if validateModelProvider vd.model vd.provider = false then
        { status := 400
          errorName := some "Compatibility Error"
          message := some ("Model \x27" ++ vd.model
            ++ "\x27 is not compatible with provider \x27" ++ vd.provider ++ "\x27")
          details := none
          provider := none
          success := false
          adapterConstructed := false
          upstreamCalled := false }
      else
        match getProviderConfig env vd.provider with
        | none => providerUnavailableResponse vd.provider
        | some config =>
            if config.available = false then
              providerUnavailableResponse vd.provider
            else
              match upstream with
              | Except.error e =>
                  { status := errorHandlerStatus (apiErrorToRaised e)
                    errorName := some "APIError"
                    message := some e.message
                    details := none
                    provider := some e.provider
                    success := false
                    adapterConstructed := true
                    upstreamCalled := true }
              | Except.ok _ =>
                  { status := 200
                    errorName := none
                    message := none
                    details := none
                    provider := some vd.provider
                    success := true
                    adapterConstructed := true
                    upstreamCalled := true }

/-- Fixture: a canned Anthropic success body. -/
def anthropicFixture : AnthropicResponseData :=
  { model := "claude-opus-4-20250514"
    content := [{ text := "Hello!" }]
    usage := none
    stop_reason := "end_turn" }

/-- Fixture: a canned Google success body. -/
def googleFixture : GoogleResponseData :=
  { candidates := [{ parts := ["Hi there"], finishReason := "STOP" }] }

/-- Fixture: a canned OpenAI success body. -/
def openaiFixture : OpenAIResponseData :=
  { model := "gpt-4"
    choices := [{ message_content := "hi", finish_reason := "stop" }]
    usage := some { prompt_tokens := 3, completion_tokens := 1, total_tokens := 4 } }

/-- Fixture: an environment with credentials for every provider except
Groq, and the stock `DEFAULT_*` values. -/
def envFixture : EnvConfig :=
  { openaiKey := some "sk-test"
    openaiBaseUrl := "https://api.openai.com/v1"
    anthropicKey := some "sk-ant-test"
    anthropicBaseUrl := "https://api.anthropic.com"
    groqKey := none
    groqBaseUrl := "https://api.groq.com/openai/v1"
    googleKey := some "g-test"
    googleBaseUrl := "https://generativelanguage.googleapis.com"
    defaultTemperature := 7 / 10
    defaultMaxTokens := 1000
    defaultTopP := 1
    defaultFrequencyPenalty := 0
    defaultPresencePenalty := 0 }

/-- Fixture: `envFixture` with `DEFAULT_TEMPERATURE` set to 1.2 instead
of the stock 0.7. -/
def envCustomDefaults : EnvConfig :=
  { envFixture with defaultTemperature := 6 / 5 }

/-- Fixture: a client `parameters` object supplying only `max_tokens`. -/
def clientParamsMaxTokensOnly : UserParams :=
  { emptyUserParams with max_tokens := some 50 }

/-- Fixture: a schema-valid, compatibility-valid chat body for Groq. -/
def chatBodyGroq : RawBody :=
  { prompt := some "hi"
    model := some "gemma2-9b-it"
    provider := some "groq"
    parameters := none
    unknownKeys := [] }

/-- Fixture: a schema-valid body pairing an OpenAI model with the
Anthropic provider. -/
def bodyIncompatible : RawBody :=
  { prompt := some "Say hi"
    model := some "gpt-4"
    provider := some "anthropic"
    parameters := none
    unknownKeys := [] }

/-- Fixture: a body with an empty prompt, an invalid model and an invalid
provider. -/
def bodyInvalid : RawBody :=
  { prompt := some ""
    model := some "x"
    provider := some "y"
    parameters := none
    unknownKeys := [] }

/-- Fixture: a successful upstream outcome for route theorems whose
conclusion does not depend on the upstream call. -/
def upstreamOkFixture : Except APIError NormalizedResponse :=
  Except.ok
    { content := "hi"
      usage := none
      metadata := { model := "gpt-4", finish_reason := some "stop", stop_reason := none } }

/-- Fixture: an upstream 429 error as axios presents it. -/
def upstream429 : JsError :=
  { response := some
      { status := 429
        dataErrorMessage := some "Rate limit reached"
        dataMessage := none }
    hasRequest := true
    code := none
    message := "Request failed with status code 429" }

/-- For a thrown `APIError` with a nonzero status code, `errorHandler`
responds with exactly that status: none of its name- or code-based
overrides match an `APIError`. -/
theorem errorHandlerStatus_apiError (a : APIError) (h : a.statusCode ≠ 0) :
    errorHandlerStatus (apiErrorToRaised a) = a.statusCode := by
  simp [errorHandlerStatus, apiErrorToRaised, jsOrNat, h]

/-- C1: the claim fails on the code. The route composed with the
incremental adapter, fed two in-order upstream frames carrying text
(delivered after the upstream response headers), invokes `onChunk` once
per frame in order — but writes the single `data: [DONE]` terminator and
ends the response first, because `generateStreamingCompletion` resolves
when the headers arrive without awaiting the end of the stream; the chunk
writes are attempted after `res.end()`. -/
theorem c1_done_written_before_chunks :
    streamRouteIncremental (Except.ok ())
      [[SseLine.dataLine (some "Hello")], [SseLine.dataLine (some " world")]] =
    { status := 200
      writes := [SseWrite.doneTerminator, SseWrite.endResponse,
        SseWrite.lateEvent (StreamChunk.content "Hello"),
        SseWrite.lateEvent (StreamChunk.content " world")]
      envelopeSent := false } := by
  rfl

/-- C2 counterexample: the Anthropic fallback emits exactly one content
chunk and no done chunk, so the claimed shape (one content chunk followed
by one done chunk) is false for the Anthropic adapter. -/
theorem c2_counterexample :
    anthropicGenerateStreamingChunks anthropicFixture =
      some [StreamChunk.content "Hello!"]
  ∧ anthropicGenerateStreamingChunks anthropicFixture ≠
      some [StreamChunk.content "Hello!", StreamChunk.done] := by
  exact ⟨rfl, by decide⟩

/-- C2 amended: for every successful blocking completion, the Google
fallback emits exactly one content chunk followed by exactly one done
chunk, while the Anthropic fallback emits exactly one content chunk and
no done chunk. -/
theorem c2_amended (d : AnthropicResponseData) (m : String) (g : GoogleResponseData)
    (r1 r2 : NormalizedResponse)
    (h1 : anthropicGenerateCompletion d = some r1)
    (h2 : googleGenerateCompletion m g = some r2) :
    anthropicGenerateStreamingChunks d = some [StreamChunk.content r1.content]
  ∧ googleGenerateStreamingChunks m g =
      some [StreamChunk.content r2.content, StreamChunk.done] := by
  unfold anthropicGenerateStreamingChunks googleGenerateStreamingChunks
  rw [h1, h2]
  exact ⟨rfl, rfl⟩

/-- C2 witness: the amended statement evaluated on canned Anthropic and
Google bodies. -/
theorem c2_amended_witness :
    anthropicGenerateStreamingChunks anthropicFixture =
      some [StreamChunk.content "Hello!"]
  ∧ googleGenerateStreamingChunks "gemini-2.5-pro" googleFixture =
      some [StreamChunk.content "Hi there", StreamChunk.done] := by
  exact c2_amended anthropicFixture "gemini-2.5-pro" googleFixture
    { content := "Hello!", usage := none
      metadata := { model := "claude-opus-4-20250514", finish_reason := none
                    stop_reason := some "end_turn" } }
    { content := "Hi there", usage := none
      metadata := { model := "gemini-2.5-pro", finish_reason := some "STOP"
                    stop_reason := none } }
    rfl rfl

/-- C8 counterexample: with `DEFAULT_TEMPERATURE` configured to 1.2 and a
client supplying only `max_tokens`, the parameter set used to build the
upstream body carries temperature 0.7 (the validation schema constant),
not the configured process-wide default. -/
theorem c8_counterexample :
    (mergeParameters (getDefaultParameters envCustomDefaults)
        (validatedParameters (some clientParamsMaxTokensOnly))).temperature = 7 / 10
  ∧ (mergeParameters (getDefaultParameters envCustomDefaults)
        (validatedParameters (some clientParamsMaxTokensOnly))).temperature ≠
      envCustomDefaults.defaultTemperature := by
  constructor
  · rfl
  · show (7 / 10 : Rat) ≠ 6 / 5
    norm_num

/-- C8 amended: fields the client supplied always keep the client value;
when the client supplies a `parameters` object, each omitted field takes
the validation schema's hard-coded default (0.7, 1000, 1.0, 0.0, 0.0,
stream false), the configured `DEFAULT_*` values being overridden; only
when the client omits `parameters` entirely do the process-wide
`DEFAULT_*` values reach the merged set. -/
theorem c8_amended (env : EnvConfig) (p : UserParams) :
    mergeParameters (getDefaultParameters env) (validatedParameters (some p)) =
      { temperature := p.temperature.getD (7 / 10 : Rat)
        max_tokens := p.max_tokens.getD 1000
        top_p := p.top_p.getD 1
        frequency_penalty := p.frequency_penalty.getD 0
        presence_penalty := p.presence_penalty.getD 0
        stop := p.stop
        stream := some (p.stream.getD false) }
  ∧ mergeParameters (getDefaultParameters env) (validatedParameters none) =
      { temperature := env.defaultTemperature
        max_tokens := env.defaultMaxTokens
        top_p := env.defaultTopP
        frequency_penalty := env.defaultFrequencyPenalty
        presence_penalty := env.defaultPresencePenalty
        stop := none
        stream := none } := by
  exact ⟨rfl, rfl⟩

/-- C9: two calls of `GET /api/models/providers` against the same
environment yield structurally identical `providers` maps (availability
flags and model catalogs); only the timestamp depends on the instant of
the call. -/
theorem c9_providers_idempotent (env : EnvConfig) (t1 t2 : Nat) :
    (providersRoute env t1).providers = (providersRoute env t2).providers := by
  rfl

/-- C10: once past validation and the availability check, a failure
raised by the adapter call — necessarily before any content chunk reaches
the route, since the incremental adapters reject only at the initial
`axios.post` and the fallback adapters reject before invoking `onChunk` —
is written as a single in-band `data: {"error": message}` event followed
by the end of the stream, with the committed status 200 for both route
variants; and the error-envelope middleware, which is anyway never
reached because the route catch swallows the error, writes nothing once
headers are sent. -/
theorem c10_stream_error_inband (e : APIError) (buffers : List (List SseLine))
    (err : RaisedError) :
    streamRouteIncremental (Except.error e) buffers =
      { status := 200
        writes := [SseWrite.errorEvent e.message, SseWrite.endResponse]
        envelopeSent := false }
  ∧ streamRouteBlocking (Except.error e) =
      { status := 200
        writes := [SseWrite.errorEvent e.message, SseWrite.endResponse]
        envelopeSent := false }
  ∧ errorHandlerRespond true err = none := by
  exact ⟨rfl, rfl, rfl⟩

/-- C4 counterexample: when the fixed 60-second timeout expires, axios
rejects with a request-without-response error, which `handleApiError`
classifies as a network error: the raised status and the resulting HTTP
status are 502, not the claimed 504. -/
theorem c4_counterexample :
    (handleApiError "openai" "OpenAI completion" axiosTimeoutError).statusCode = 502
  ∧ upstreamFailureHttpStatus "openai" "OpenAI completion" axiosTimeoutError = 502
  ∧ upstreamFailureHttpStatus "openai" "OpenAI completion" axiosTimeoutError ≠ 504 := by
  refine ⟨rfl, rfl, by decide⟩

/-- C4 amended: the raised Upstream API error always carries the
originating provider name; its status mirrors the upstream HTTP status
when a response is present and is 502 for any request that got no
response — which covers both network-level failures and timeout expiry —
and the resulting HTTP response uses exactly that status (for any
nonzero status code). -/
theorem c4_amended (provider operation : String) (e : JsError)
    (h0 : (handleApiError provider operation e).statusCode ≠ 0) :
    (handleApiError provider operation e).provider = provider
  ∧ (∀ r, e.response = some r → (handleApiError provider operation e).statusCode = r.status)
  ∧ (e.response = none → e.hasRequest = true →
      (handleApiError provider operation e).statusCode = 502)
  ∧ upstreamFailureHttpStatus provider operation e =
      (handleApiError provider operation e).statusCode := by
  refine ⟨?_, ?_, ?_, errorHandlerStatus_apiError _ h0⟩
  · rcases hr : e.response with _ | r
    · unfold handleApiError
      rw [hr]
      by_cases hq : e.hasRequest <;> simp [hq]
    · unfold handleApiError
      rw [hr]
  · intro r hr
    unfold handleApiError
    rw [hr]
  · intro hn hq
    unfold handleApiError
    rw [hn]
    simp [hq]

/-- C4 witness: an upstream 429 is mirrored into the raised error and
into the HTTP response status. -/
theorem c4_amended_witness :
    (handleApiError "openai" "OpenAI completion" upstream429).statusCode = 429
  ∧ upstreamFailureHttpStatus "openai" "OpenAI completion" upstream429 = 429 := by
  have h := c4_amended "openai" "OpenAI completion" upstream429 (by decide)
  refine ⟨h.2.1 _ rfl, ?_⟩
  rw [h.2.2.2]
  exact h.2.1 _ rfl

/-- C7 counterexample: the Anthropic adapter result for a canned success
body carries no `finish_reason` key in its metadata (it carries
`stop_reason` instead), refuting the claim that every adapter result
metadata contains `finish_reason`. -/
theorem c7_counterexample :
    (anthropicGenerateCompletion anthropicFixture).map
        (fun r => r.metadata.finish_reason) = some none
  ∧ (anthropicGenerateCompletion anthropicFixture).map
        (fun r => r.metadata.stop_reason) = some (some "end_turn") := by
  exact ⟨rfl, rfl⟩

/-- C7 amended: the OpenAI, Groq and Google adapters always produce a
metadata record with a `finish_reason` key (the OpenAI one echoing the
upstream model and usage, the Google one echoing the request model),
while the Anthropic adapter produces metadata with `stop_reason` and no
`finish_reason`. -/
theorem c7_amended :
    (∀ d r, openaiGenerateCompletion d = some r →
        r.metadata.finish_reason.isSome = true ∧ r.metadata.model = d.model ∧ r.usage = d.usage)
  ∧ (∀ d r, groqGenerateCompletion d = some r → r.metadata.finish_reason.isSome = true)
  ∧ (∀ m d r, googleGenerateCompletion m d = some r →
        r.metadata.finish_reason.isSome = true ∧ r.metadata.model = m)
  ∧ (∀ d r, anthropicGenerateCompletion d = some r →
        r.metadata.finish_reason = none ∧ r.metadata.stop_reason = some d.stop_reason) := by
  refine ⟨?_, ?_, ?_, ?_⟩
  · intro d r h
    unfold openaiGenerateCompletion at h
    obtain ⟨c, hc, rfl⟩ := Option.map_eq_some'.mp h
    exact ⟨rfl, rfl, rfl⟩
  · intro d r h
    unfold groqGenerateCompletion at h
    obtain ⟨c, hc, rfl⟩ := Option.map_eq_some'.mp h
    rfl
  · intro m d r h
    unfold googleGenerateCompletion at h
    obtain ⟨cand, hcand, h2⟩ := Option.bind_eq_some.mp h
    obtain ⟨t, ht, rfl⟩ := Option.map_eq_some'.mp h2
    exact ⟨rfl, rfl⟩
  · intro d r h
    unfold anthropicGenerateCompletion at h
    obtain ⟨c, hc, rfl⟩ := Option.map_eq_some'.mp h
    exact ⟨rfl, rfl⟩

/-- C7 witness: the amended statement evaluated on canned OpenAI and
Anthropic success bodies. -/
theorem c7_amended_witness :
    (∃ r, openaiGenerateCompletion openaiFixture = some r ∧
        r.metadata.finish_reason.isSome = true)
  ∧ (∃ r, anthropicGenerateCompletion anthropicFixture = some r ∧
        r.metadata.finish_reason = none ∧ r.metadata.stop_reason = some "end_turn") := by
  constructor
  · exact ⟨_, rfl, (c7_amended.1 openaiFixture _ rfl).1⟩
  · exact ⟨_, rfl, (c7_amended.2.2.2 anthropicFixture _ rfl).1,
      (c7_amended.2.2.2 anthropicFixture _ rfl).2⟩

/-- C3 counterexample: for a provider whose credential is absent,
`GET /api/models/:provider` does return 503, but its body carries no
`available` key at all — in particular not `available: false`. -/
theorem c3_counterexample :
    (providerRoute envFixture "groq").status = 503
  ∧ (providerRoute envFixture "groq").available = none
  ∧ (providerRoute envFixture "groq").available ≠ some false := by
  have h : (providerRoute envFixture "groq").available = none := rfl
  exact ⟨rfl, h, by rw [h]; simp⟩

/-- C3 amended: for every provider present in the configuration table
whose credential is absent, `GET /api/models/:provider` responds 503 with
a body naming the provider but containing no `available` field, and a
schema-valid, compatibility-valid `POST /api/models/chat` naming that
provider responds 503 (not 500) with no adapter constructed and no
upstream call made. -/
theorem c3_amended (env : EnvConfig) (p : String) (config : ProviderConfig)
    (h1 : getProviderConfig env p = some config)
    (h2 : config.available = false) :
    ((providerRoute env p).status = 503
      ∧ (providerRoute env p).provider = some p
      ∧ (providerRoute env p).available = none)
  ∧ (∀ b up vd, validateBody b = Except.ok vd → vd.provider = p →
      validateModelProvider vd.model vd.provider = true →
      (chatRoute env b up).status = 503
        ∧ (chatRoute env b up).adapterConstructed = false
        ∧ (chatRoute env b up).upstreamCalled = false) := by
  constructor
  · unfold providerRoute
    rw [h1]
    simp [h2]
  · intro b up vd hv hp hcompat
    unfold chatRoute
    rw [hv]
    rw [hp] at hcompat
    simp [hcompat, hp, h1, h2, providerUnavailableResponse]

/-- C3 witness: the amended statement evaluated against an environment
with no Groq credential, for both the GET route and a valid Groq chat
body. -/
theorem c3_amended_witness :
    (providerRoute envFixture "groq").status = 503
  ∧ (chatRoute envFixture chatBodyGroq upstreamOkFixture).status = 503
  ∧ (chatRoute envFixture chatBodyGroq upstreamOkFixture).adapterConstructed = false := by
  have h := c3_amended envFixture "groq"
    { apiKey := none, baseUrl := "https://api.groq.com/openai/v1", available := false }
    rfl rfl
  refine ⟨h.1.1, ?_, ?_⟩
  · exact (h.2 chatBodyGroq upstreamOkFixture
      { prompt := "hi", model := "gemma2-9b-it", provider := "groq"
        parameters := emptyUserParams } rfl rfl rfl).1
  · exact (h.2 chatBodyGroq upstreamOkFixture
      { prompt := "hi", model := "gemma2-9b-it", provider := "groq"
        parameters := emptyUserParams } rfl rfl rfl).2.1

/-- C5: any body violating the base schema is answered with 400 whose
`details` list enumerates, in one pass and in schema key order, one
`{field, message, value}` entry per violating field (the concatenation of
all four per-field checks, not just the first failing one); no adapter is
constructed and no upstream call made; and unknown top-level keys never
influence the outcome (they are stripped, the validated value having no
slot for them). -/
theorem c5_validation_enumerates (env : EnvConfig) (b : RawBody)
    (up : Except APIError NormalizedResponse)
    (h : collectViolations b ≠ []) :
    (chatRoute env b up).status = 400
  ∧ (chatRoute env b up).errorName = some "Validation Error"
  ∧ (chatRoute env b up).details =
      some (checkPrompt b.prompt ++ checkModel b.model ++ checkProvider b.provider
        ++ checkParameters b.parameters)
  ∧ (chatRoute env b up).adapterConstructed = false
  ∧ (chatRoute env b up).upstreamCalled = false
  ∧ (∀ ks, collectViolations { b with unknownKeys := ks } = collectViolations b) := by
  have hv : validateBody b = Except.error (collectViolations b) := by
    unfold validateBody
    simp [h]
  unfold chatRoute
  rw [hv]
  exact ⟨rfl, rfl, rfl, rfl, rfl, fun ks => rfl⟩

/-- C5 witness: the spec scenario `{prompt: "", model: "x", provider: "y"}`
yields 400 with one detail entry per violating field, the prompt entry
first, and no adapter activity. -/
theorem c5_witness :
    collectViolations bodyInvalid ≠ []
  ∧ (chatRoute envFixture bodyInvalid upstreamOkFixture).status = 400
  ∧ (chatRoute envFixture bodyInvalid upstreamOkFixture).details = some
      [{ field := "prompt", message := "Prompt cannot be empty"
         value := some (RawValue.str "") },
       { field := "model", message := "Invalid model selection"
         value := some (RawValue.str "x") },
       { field := "provider", message := "Invalid provider selection"
         value := some (RawValue.str "y") }]
  ∧ (chatRoute envFixture bodyInvalid upstreamOkFixture).adapterConstructed = false := by
  have h := c5_validation_enumerates envFixture bodyInvalid upstreamOkFixture (by decide)
  refine ⟨by decide, h.1, ?_, h.2.2.2.1⟩
  rw [h.2.2.1]
  rfl

/-- C6: once the base schema has passed and produced a validated value,
an incompatible `(model, provider)` pair is answered with 400 and the
compatibility-specific message, with no adapter constructed and no
upstream call; the check itself (`validateModelProvider`) is a pure
lookup in the fixed table. -/
theorem c6_compatibility_gate (env : EnvConfig) (b : RawBody)
    (up : Except APIError NormalizedResponse) (vd : ValidatedData)
    (h1 : validateBody b = Except.ok vd)
    (h2 : validateModelProvider vd.model vd.provider = false) :
    (chatRoute env b up).status = 400
  ∧ (chatRoute env b up).errorName = some "Compatibility Error"
  ∧ (chatRoute env b up).message = some ("Model \x27" ++ vd.model
      ++ "\x27 is not compatible with provider \x27" ++ vd.provider ++ "\x27")
  ∧ (chatRoute env b up).adapterConstructed = false
  ∧ (chatRoute env b up).upstreamCalled = false := by
  unfold chatRoute
  rw [h1]
  simp [h2]

/-- C6 witness: the spec scenario model `gpt-4` with provider
`anthropic` is rejected by the compatibility gate with no adapter
activity. -/
theorem c6_witness :
    (chatRoute envFixture bodyIncompatible upstreamOkFixture).status = 400
  ∧ (chatRoute envFixture bodyIncompatible upstreamOkFixture).errorName =
      some "Compatibility Error"
  ∧ (chatRoute envFixture bodyIncompatible upstreamOkFixture).adapterConstructed = false := by
  have h := c6_compatibility_gate envFixture bodyIncompatible upstreamOkFixture
    { prompt := "Say hi", model := "gpt-4", provider := "anthropic"
      parameters := emptyUserParams }
    rfl rfl
  exact ⟨h.1, h.2.1, h.2.2.2.1⟩
